import Mathlib

/-!
Verification development for the facial-recognition attendance server
(source files `app.py`, `database.py`, `utils.py`).

Modelling conventions
* Time is rational seconds (`time.time()` and SQLite datetimes share one axis;
  the SQL phrase `datetime('now', '-N minutes')` becomes `now - N * 60`).
* The SQLite tables `attendance_logs` and `students` are Lean lists; SQLite
  row ids for freshly inserted logs are `length + 1`.
* The external `face_recognition` library (image loading, face detection,
  encoding, `face_distance`) is abstracted by an `analysis` input: `none`
  when no face is detected, the encoder fails, or the library raises (each
  of those paths is caught by the source and mapped to a no-match), and
  `some ds` when a probe face was encoded, where `ds` lists its distance to
  each gallery encoding, in gallery order (`face_distance` returns one
  distance per known encoding).
* Python string truthiness (`if not s`) is `s = ""`; `.strip()` is
  `pyStrip`; `.upper()` is `pyUpper` (both below, over the character list).
-/

/-- `TOLERANCE = 0.6` from `utils.py`. -/
def TOLERANCE : ℚ := 6 / 10

/-- `DUPLICATE_THRESHOLD_MINUTES = 5` from `app.py`. -/
def DUPLICATE_THRESHOLD_MINUTES : ℕ := 5

/-- Python `str.upper()` (`log_type.upper()` in `database.py`), modelled
over the character list. -/
def pyUpper (s : String) : String := ⟨s.data.map Char.toUpper⟩

/-- Python `str.strip()`, modelled over the character list: drop whitespace
from both ends. -/
def pyStrip (s : String) : String :=
  ⟨((s.data.dropWhile Char.isWhitespace).reverse.dropWhile Char.isWhitespace).reverse⟩

/-- `np.argmin`: index of the first minimum of a list.  (On the empty list
NumPy raises; callers in `utils.py` reach it only with a non-empty list or
have the exception mapped to a no-match by their `except` block.) -/
def argminIdx : List ℚ → ℕ
  | [] => 0
  | [_] => 0
  | x :: y :: rest =>
    if (y :: rest).getD (argminIdx (y :: rest)) 0 < x then argminIdx (y :: rest) + 1 else 0

/-- `best_distance` in `utils.py`: the distance at the argmin index. -/
def bestDist (l : List ℚ) : ℚ := l.getD (argminIdx l) 0

/-- `recognize_face` from `utils.py`, lines 142-208.  `gallerySize` is
`len(known_encodings)`; `analysis` abstracts the face_recognition library
calls inside the `try` block (see the module docstring); the final
`except` clause of the source maps every raised exception — including the
`IndexError` of `known_names[best_match_index]` when the two gallery lists
are out of step, and the `ValueError` of `np.argmin` on an empty array —
to `(None, None)`. -/
def recognize_face (gallerySize : ℕ) (known_names : List String)
    (analysis : Option (List ℚ)) (tolerance : ℚ) : Option String × Option ℚ :=
  if gallerySize = 0 then (none, none)
  else
    match analysis with
    | none => (none, none)
    | some ds =>
      if ds.isEmpty then (none, none)
      else if bestDist ds ≤ tolerance then
        match known_names.get? (argminIdx ds) with
        | some nm => (some nm, some (1 - bestDist ds))
        | none => (none, none)
      else (none, none)

/-- `recognize_face_from_bytes` from `utils.py`, lines 211-281: the source
duplicates the decision logic of `recognize_face` verbatim (only the image
loading differs, which lives inside `analysis` here). -/
def recognize_face_from_bytes (gallerySize : ℕ) (known_names : List String)
    (analysis : Option (List ℚ)) (tolerance : ℚ) : Option String × Option ℚ :=
  if gallerySize = 0 then (none, none)
  else
    match analysis with
    | none => (none, none)
    | some ds =>
      if ds.isEmpty then (none, none)
      else if bestDist ds ≤ tolerance then
        match known_names.get? (argminIdx ds) with
        | some nm => (some nm, some (1 - bestDist ds))
        | none => (none, none)
      else (none, none)

/-- One row of the `attendance_logs` table (`database.py`). -/
structure ALog where
  student_name : String
  log_type : String
  timestamp : ℚ
  confidence : Option ℚ
deriving DecidableEq

/-- `check_duplicate_attendance` from `database.py`, lines 380-406:
`COUNT(*) > 0` over rows with this student, this (upper-cased) log type and
`timestamp > datetime('now', '-threshold minutes')`. -/
def check_duplicate_attendance (db : List ALog) (student_name log_type : String)
    (minutes_threshold : ℕ) (now : ℚ) : Bool :=
  decide (0 < db.countP fun r =>
    r.student_name == student_name && r.log_type == pyUpper log_type
      && decide (now - (minutes_threshold : ℚ) * 60 < r.timestamp))

/-- `log_attendance` from `database.py`, lines 206-237: insert one row with
the upper-cased log type and `timestamp = now`, returning the new row id. -/
def log_attendance (db : List ALog) (student_name log_type : String)
    (now : ℚ) (confidence : Option ℚ) : List ALog × ℕ :=
  (db ++ [⟨student_name, pyUpper log_type, now, confidence⟩], db.length + 1)

/-- Terminal outcome of one capture attempt (the `status` of the JSON result
dicts built in `app.py`). -/
inductive Resolution where
  | registered (name : String)
  | success (name log_type : String) (confidence : Option ℚ) (record_id : ℕ)
  | duplicate (name log_type : String)
  | unknown
  | error (message : String)
  | timeout
deriving DecidableEq

/-- The matched-name branch shared by the attendance/logout modes of
`/api/recognize`, `/api/web/attendance` and `/api/web/logout`
(`app.py` 433-475, 742-776, 839-873): duplicate check, then either the
`duplicate` resolution (no insert, no email) or an insert followed by
`send_guardian_email` and the `success` resolution.  The `Bool` records
whether the guardian-notification dispatch was invoked. -/
def resolveRecognized (db : List ALog) (now : ℚ) (name log_type : String)
    (confidence : Option ℚ) : List ALog × Resolution × Bool :=
  if check_duplicate_attendance db name log_type DUPLICATE_THRESHOLD_MINUTES now then
    (db, .duplicate name log_type, false)
  else
    ((log_attendance db name log_type now confidence).1,
     .success name log_type confidence (log_attendance db name log_type now confidence).2,
     true)

/-- One row of the `students` table (`database.py`). -/
structure Student where
  name : String
  year_level : Option String
  guardian_name : Option String
  guardian_email : Option String
  image_filename : Option String
deriving DecidableEq

/-- SQL `COALESCE(incoming, existing)`: only SQL NULL (here `none`) falls
through to the existing value; the empty string is a non-NULL value. -/
def coalesce (a b : Option String) : Option String :=
  match a with
  | some s => some s
  | none => b

/-- `add_student` from `database.py`, lines 110-162: update via
`COALESCE(?, column)` when a row with this name exists, insert otherwise. -/
def add_student (db : List Student) (name : String)
    (year_level guardian_name guardian_email image_filename : Option String) :
    List Student :=
  if db.any (fun s => s.name == name) then
    db.map fun s =>
      if s.name == name then
        { s with
          year_level := coalesce year_level s.year_level,
          guardian_name := coalesce guardian_name s.guardian_name,
          guardian_email := coalesce guardian_email s.guardian_email,
          image_filename := coalesce image_filename s.image_filename }
      else s
  else db ++ [⟨name, year_level, guardian_name, guardian_email, image_filename⟩]

/-- Python `stripped_field or None` used by `/api/register` and
`/api/web/register` before calling `add_student` (`app.py` 561-563, 668-670). -/
def orNone (s : String) : Option String := if s = "" then none else some s

/-- The global `capture_command` dict of `app.py`, lines 63-74. -/
structure CaptureCommand where
  pending : Bool
  mode : Option String
  student_name : Option String
  year_level : Option String
  guardian_name : Option String
  guardian_email : Option String
  timestamp : ℚ
  result : Option Resolution
  result_timestamp : ℚ
deriving DecidableEq

/-- The initial value of `capture_command`, also what `/api/command/clear`
resets it to. -/
def initialCommand : CaptureCommand :=
  ⟨false, none, none, none, none, none, 0, none, 0⟩

/-- Response of `/api/command/capture`. -/
inductive IssueResp where
  | accepted (mode : String)
  | validation_error
deriving DecidableEq

/-- The dict assigned to `capture_command` by a successful
`/api/command/capture` (`app.py` 166-176): registration fields are kept
(stripped) only in register mode, the result slot is reset. -/
def freshCommand (now : ℚ) (mode name year_level guardian_name guardian_email : String) :
    CaptureCommand :=
  ⟨true, some mode,
    if mode = "register" then some (pyStrip name) else none,
    if mode = "register" then some (pyStrip year_level) else none,
    if mode = "register" then some (pyStrip guardian_name) else none,
    if mode = "register" then some (pyStrip guardian_email) else none,
    now, none, 0⟩

/-- `request_capture` from `app.py`, lines 136-190: reject register mode
with a blank (stripped) name, otherwise overwrite the whole command dict. -/
def request_capture (st : CaptureCommand) (now : ℚ)
    (mode name year_level guardian_name guardian_email : String) :
    CaptureCommand × IssueResp :=
  if mode = "register" ∧ pyStrip name = "" then (st, .validation_error)
  else (freshCommand now mode name year_level guardian_name guardian_email, .accepted mode)

/-- Response of `/api/command/poll`. -/
inductive PollResp where
  | capture (mode : Option String) (student_name : Option String)
  | no_command
deriving DecidableEq

/-- `poll_command` from `app.py`, lines 193-217: a pending command younger
than 30 s is returned; a pending command at least 30 s old is expired in
place (pending cleared, a timeout result published); otherwise nothing. -/
def poll_command (st : CaptureCommand) (now : ℚ) : CaptureCommand × PollResp :=
  if st.pending ∧ now - st.timestamp < 30 then
    (st, .capture st.mode st.student_name)
  else if st.pending ∧ 30 ≤ now - st.timestamp then
    ({ st with pending := false, result := some .timeout, result_timestamp := now },
     .no_command)
  else
    (st, .no_command)

/-- Response of `/api/command/result`. -/
inductive ResultResp where
  | found (r : Resolution)
  | waiting (pending : Bool)
deriving DecidableEq

/-- `get_capture_result` from `app.py`, lines 220-233: a stored result
younger than 60 s, else a waiting response carrying the pending flag. -/
def get_capture_result (st : CaptureCommand) (now : ℚ) : ResultResp :=
  match st.result with
  | some r => if now - st.result_timestamp < 60 then .found r else .waiting st.pending
  | none => .waiting st.pending

/-- `clear_command` from `app.py`, lines 236-253. -/
def clear_command (_ : CaptureCommand) : CaptureCommand := initialCommand

/-- The three-line publication pattern repeated through `/api/recognize`
(`capture_command["result"] = result; ["result_timestamp"] = now;
["pending"] = False`). -/
def publish_result (st : CaptureCommand) (now : ℚ) (r : Resolution) : CaptureCommand :=
  { st with pending := false, result := some r, result_timestamp := now }

/-- One server-side transition of the command slot that is not a new
`/api/command/capture`: a camera poll, a result publication by
`/api/recognize`, or `/api/command/clear`. -/
inductive CmdStep : CaptureCommand → CaptureCommand → Prop
  | poll (st : CaptureCommand) (t : ℚ) : CmdStep st (poll_command st t).1
  | publish (st : CaptureCommand) (t : ℚ) (r : Resolution) :
      CmdStep st (publish_result st t r)
  | clear (st : CaptureCommand) : CmdStep st (clear_command st)

/-- Reachability through `CmdStep` transitions (no new capture command). -/
def CmdReachable : CaptureCommand → CaptureCommand → Prop :=
  Relation.ReflTransGen CmdStep

/-- A sequence of `/api/command/poll` calls at the given times. -/
def pollMany (st : CaptureCommand) (ts : List ℚ) : CaptureCommand :=
  ts.foldl (fun s t => (poll_command s t).1) st

/-- The attendance branch of `/api/recognize` (`app.py` 426-484) for an
already-saved image whose matcher outcome is `matchRes`: every branch both
returns its resolution and publishes it into the command slot. -/
def recognize_attendance (cmd : CaptureCommand) (db : List ALog) (now : ℚ)
    (matchRes : Option (String × ℚ)) : CaptureCommand × List ALog × Resolution :=
  match matchRes with
  | some m =>
    (publish_result cmd now (resolveRecognized db now m.1 "IN" (some m.2)).2.1,
     (resolveRecognized db now m.1 "IN" (some m.2)).1,
     (resolveRecognized db now m.1 "IN" (some m.2)).2.1)
  | none => (publish_result cmd now .unknown, db, .unknown)

/-- The logout branch of `/api/recognize` (`app.py` 366-424): the OUT twin
of the attendance branch; every branch (duplicate, success, unknown) both
returns its resolution and publishes it into the command slot. -/
def recognize_logout (cmd : CaptureCommand) (db : List ALog) (now : ℚ)
    (matchRes : Option (String × ℚ)) : CaptureCommand × List ALog × Resolution :=
  match matchRes with
  | some m =>
    (publish_result cmd now (resolveRecognized db now m.1 "OUT" (some m.2)).2.1,
     (resolveRecognized db now m.1 "OUT" (some m.2)).1,
     (resolveRecognized db now m.1 "OUT" (some m.2)).2.1)
  | none => (publish_result cmd now .unknown, db, .unknown)

/-- The error publications of `/api/recognize`: the empty-filename and
missing-image 400 replies (`app.py` 285-316) and the catch-all exception
500 reply (`app.py` 486-492) all build an error result, publish it into
the command slot with the same three-line pattern, and return it. -/
def recognize_error_reply (cmd : CaptureCommand) (now : ℚ) (message : String) :
    CaptureCommand × Resolution :=
  (publish_result cmd now (.error message), .error message)

/-- `/api/web/attendance` (`app.py` 694-788): same decision logic, but the
function never touches `capture_command` — the command slot passes through
unchanged. -/
def web_attendance (cmd : CaptureCommand) (db : List ALog) (now : ℚ)
    (matchRes : Option (String × ℚ)) : CaptureCommand × List ALog × Resolution :=
  match matchRes with
  | some m =>
    (cmd, (resolveRecognized db now m.1 "IN" (some m.2)).1,
     (resolveRecognized db now m.1 "IN" (some m.2)).2.1)
  | none => (cmd, db, .unknown)

/-- `/api/web/logout` (`app.py` 791-885): the OUT twin of
`/api/web/attendance`; also never touches `capture_command`. -/
def web_logout (cmd : CaptureCommand) (db : List ALog) (now : ℚ)
    (matchRes : Option (String × ℚ)) : CaptureCommand × List ALog × Resolution :=
  match matchRes with
  | some m =>
    (cmd, (resolveRecognized db now m.1 "OUT" (some m.2)).1,
     (resolveRecognized db now m.1 "OUT" (some m.2)).2.1)
  | none => (cmd, db, .unknown)

/-- Name resolution of the register branch of `/api/recognize`
(`app.py` 324-331): `reg_name = student_name_header or
capture_command.get("student_name", "")`, rejected iff falsy.  Note the
header is used untrimmed, and any non-empty header (even whitespace) is
truthy. -/
def recognize_register_name (header : String) (cmd_name : Option String) :
    Option String :=
  if (if header = "" then cmd_name.getD "" else header) = "" then none
  else some (if header = "" then cmd_name.getD "" else header)

/-- The register branch of `/api/recognize` (`app.py` 324-363): resolve the
name (rejecting with a 400 error before any face processing when falsy);
with a detectable face (`faceOk`), persist the face file and upsert the
student row with the registration fields held in the capture command; every
branch publishes its resolution. -/
def recognize_register (cmd : CaptureCommand) (db : List Student) (now : ℚ)
    (header_name : String) (faceOk : Bool) :
    CaptureCommand × List Student × Resolution :=
  match recognize_register_name header_name cmd.student_name with
  | none =>
    (publish_result cmd now (.error "Student name required for registration"), db,
     .error "Student name required for registration")
  | some reg_name =>
    if faceOk then
      (publish_result cmd now (.registered reg_name),
       add_student db reg_name cmd.year_level cmd.guardian_name cmd.guardian_email
         (some (reg_name ++ ".jpg")),
       .registered reg_name)
    else
      (publish_result cmd now (.error "Could not detect face in the image"), db,
       .error "Could not detect face in the image")

/-- Name validation of `/api/register` (`app.py` 516-523): the form field
may be absent (`none`); rejected (HTTP 400, before any face processing or
persistence) iff absent or blank after stripping, else the stripped name is
used. -/
def register_student_name_check (name : Option String) : Option String :=
  match name with
  | none => none
  | some s => if pyStrip s = "" then none else some (pyStrip s)

/-- Name validation of `/api/web/register` (`app.py` 616-646): the name is
stripped at extraction on every branch (multipart, JSON, form fallback) with
default `""`; rejected (HTTP 400, before any face processing) iff blank. -/
def web_register_name_check (name : Option String) : Option String :=
  if pyStrip (name.getD "") = "" then none else some (pyStrip (name.getD ""))

/-- The argmin index of a non-empty list is in range. -/
theorem argminIdx_lt_length : ∀ (l : List ℚ), l ≠ [] → argminIdx l < l.length
  | [], h => absurd rfl h
  | [_], _ => by simp [argminIdx]
  | x :: y :: rest, _ => by
    have ih := argminIdx_lt_length (y :: rest) (by simp)
    simp only [argminIdx]
    split
    · simpa using Nat.succ_lt_succ ih
    · simp

/-- The best distance of a non-empty list is one of its elements. -/
theorem bestDist_mem (l : List ℚ) (h : l ≠ []) : bestDist l ∈ l := by
  have hlt := argminIdx_lt_length l h
  unfold bestDist
  rw [List.getD_eq_getElem l 0 hlt]
  exact List.getElem_mem hlt

/-- The best distance really is minimal: it is at most every distance in
the list (the argmin picks a minimum). -/
theorem bestDist_le : ∀ (l : List ℚ), ∀ x ∈ l, bestDist l ≤ x
  | [], x, hx => absurd hx (by simp)
  | [a], x, hx => by
    simp only [List.mem_singleton] at hx
    simp [bestDist, argminIdx, hx]
  | a :: b :: rest, x, hx => by
    have ih := bestDist_le (b :: rest)
    simp only [bestDist, argminIdx]
    split
    · rename_i hlt
      rw [List.getD_cons_succ]
      rcases List.mem_cons.mp hx with rfl | hx2
      · exact le_of_lt hlt
      · exact ih x hx2
    · rename_i hge
      push_neg at hge
      rw [List.getD_cons_zero]
      rcases List.mem_cons.mp hx with rfl | hx2
      · exact le_refl x
      · exact le_trans hge (ih x hx2)

/-- Claim C3: for every non-empty gallery and every face whose best-match
distance is d, the matcher accepts iff d ≤ τ with τ = 0.6: at d = τ it
returns the matched gallery name with confidence 1 − d, for d > τ it
returns no match, and every reported confidence lies in [0, 1] (given the
library invariant that distances are non-negative norms and that
`load_known_faces` builds the two gallery lists pairwise). -/
theorem matcher_threshold_boundary (g : ℕ) (names : List String) (ds : List ℚ)
    (hg : g ≠ 0) (hlen : ds.length = g) (hnames : names.length = g)
    (h0 : ∀ x ∈ ds, 0 ≤ x) :
    (bestDist ds ≤ TOLERANCE →
       ∃ nm ∈ names,
         recognize_face g names (some ds) TOLERANCE = (some nm, some (1 - bestDist ds))
         ∧ 0 ≤ 1 - bestDist ds ∧ 1 - bestDist ds ≤ 1)
    ∧ (TOLERANCE < bestDist ds →
       recognize_face g names (some ds) TOLERANCE = (none, none)) := by
  have hne : ds ≠ [] := by
    intro h
    rw [h] at hlen
    exact hg hlen.symm
  have hemp : ds.isEmpty = false := List.isEmpty_eq_false.mpr hne
  have hidx : argminIdx ds < names.length := by
    rw [hnames, ← hlen]
    exact argminIdx_lt_length ds hne
  have hget : names.get? (argminIdx ds) = some (names.get ⟨argminIdx ds, hidx⟩) :=
    List.get?_eq_get hidx
  rw [List.get?_eq_getElem?] at hget
  constructor
  · intro hle
    refine ⟨names.get ⟨argminIdx ds, hidx⟩, List.get_mem names _ _, ?_, ?_, ?_⟩
    · simp [recognize_face, hg, hemp, hget, hle]
    · have : bestDist ds ≤ 6 / 10 := by simpa [TOLERANCE] using hle
      linarith
    · have hd0 : 0 ≤ bestDist ds := h0 _ (bestDist_mem ds hne)
      linarith
  · intro hgt
    simp [recognize_face, hg, hemp, not_le.mpr hgt]

/-- Witness for C3 at the exact boundary: a single-entry gallery whose best
distance is exactly τ = 0.6 is accepted with confidence 0.4. -/
theorem matcher_threshold_boundary_witness :
    ∃ nm ∈ ["Ann"],
      recognize_face 1 ["Ann"] (some [6 / 10]) TOLERANCE
          = (some nm, some (1 - bestDist [6 / 10]))
        ∧ 0 ≤ 1 - bestDist [6 / 10] ∧ 1 - bestDist [6 / 10] ≤ 1 :=
  (matcher_threshold_boundary 1 ["Ann"] [6 / 10] (by decide) (by decide) (by decide)
    (by intro x hx; simp at hx; rw [hx]; norm_num)).1
    (by rw [show bestDist [6 / 10] = 6 / 10 from rfl]; norm_num [TOLERANCE])

/-- Claim C7: with an empty gallery (no loaded encodings) both matcher entry
points return the no-match outcome (None identity, None confidence) for
every input image outcome, before any library call — in particular they
never return a spurious match and never raise. -/
theorem empty_gallery_no_match (names : List String) (analysis : Option (List ℚ))
    (tol : ℚ) :
    recognize_face 0 names analysis tol = (none, none)
    ∧ recognize_face_from_bytes 0 names analysis tol = (none, none) := by
  constructor <;> rfl

/-- Claim C9: `recognize_face` is total and its two results are paired — for
every input it returns either `(none, none)` or `(some name, some conf)`
with `name` an element of the supplied `known_names` and `conf` equal to
one minus the best-match distance of the analysed face. -/
theorem recognize_face_total_paired (g : ℕ) (names : List String)
    (analysis : Option (List ℚ)) (tol : ℚ) :
    recognize_face g names analysis tol = (none, none)
    ∨ ∃ nm ds, analysis = some ds ∧ nm ∈ names
        ∧ recognize_face g names analysis tol = (some nm, some (1 - bestDist ds)) := by
  by_cases hg : g = 0
  · left
    simp [recognize_face, hg]
  · rcases analysis with _ | ds
    · left
      simp [recognize_face, hg]
    · by_cases hemp : ds.isEmpty
      · left
        simp [recognize_face, hg, hemp]
      · by_cases hle : bestDist ds ≤ tol
        · rcases hget : names.get? (argminIdx ds) with _ | nm
          · left
            have hget2 := hget
            rw [List.get?_eq_getElem?] at hget2
            simp [recognize_face, hg, hemp, hle, hget2]
          · right
            have hget2 := hget
            rw [List.get?_eq_getElem?] at hget2
            exact ⟨nm, ds, rfl, List.get?_mem hget,
              by simp [recognize_face, hg, hemp, hle, hget2]⟩
        · left
          simp [recognize_face, hg, hemp, hle]

/-- The SQL duplicate query holds exactly when some persisted record of this
student and log type is newer than `now` minus the threshold. -/
theorem check_duplicate_iff (db : List ALog) (s t : String) (now : ℚ)
    (htu : pyUpper t = t) :
    check_duplicate_attendance db s t DUPLICATE_THRESHOLD_MINUTES now = true
      ↔ ∃ r ∈ db, r.student_name = s ∧ r.log_type = t ∧ now - 5 * 60 < r.timestamp := by
  simp only [check_duplicate_attendance, DUPLICATE_THRESHOLD_MINUTES, htu,
    decide_eq_true_eq, List.countP_pos_iff, Bool.and_eq_true, beq_iff_eq]
  norm_num
  tauto

/-- Claim C1: for every student s and log type t ∈ {IN, OUT}, if a record
for (s, t) was persisted within the last 5 minutes of now, a recognition
attempt matching s with declared type t resolves to Duplicate, persists no
new record and dispatches no notification; otherwise it resolves to Success
and persists exactly one new record (with the notification dispatched). -/
theorem duplicate_suppression (db : List ALog) (s t : String) (now : ℚ)
    (conf : Option ℚ) (ht : t = "IN" ∨ t = "OUT") :
    ((∃ r ∈ db, r.student_name = s ∧ r.log_type = t ∧ now - 5 * 60 < r.timestamp) →
       resolveRecognized db now s t conf = (db, .duplicate s t, false))
    ∧ ((¬ ∃ r ∈ db, r.student_name = s ∧ r.log_type = t ∧ now - 5 * 60 < r.timestamp) →
       resolveRecognized db now s t conf
         = (db ++ [⟨s, t, now, conf⟩], .success s t conf (db.length + 1), true)) := by
  have htu : pyUpper t = t := by
    rcases ht with h | h <;> rw [h] <;> decide
  have hiff := check_duplicate_iff db s t now htu
  constructor
  · intro h
    simp [resolveRecognized, hiff.mpr h]
  · intro h
    have hfalse : check_duplicate_attendance db s t DUPLICATE_THRESHOLD_MINUTES now = false :=
      Bool.eq_false_iff.mpr (fun htr => h (hiff.mp htr))
    simp [resolveRecognized, hfalse, log_attendance, htu]

/-- Witness for C1, duplicate case: Alice logged IN at time 0 is suppressed
at time 100 (inside the 300 s window), leaving the store unchanged. -/
theorem duplicate_suppression_witness :
    resolveRecognized [⟨"Alice", "IN", 0, none⟩] 100 "Alice" "IN" (some (9 / 10))
      = ([⟨"Alice", "IN", 0, none⟩], .duplicate "Alice" "IN", false) :=
  (duplicate_suppression [⟨"Alice", "IN", 0, none⟩] "Alice" "IN" 100 (some (9 / 10))
      (Or.inl rfl)).1
    ⟨⟨"Alice", "IN", 0, none⟩, by simp, rfl, rfl, by norm_num⟩

/-- No transition other than a new capture command can set the pending flag. -/
theorem cmdStep_pending {s s2 : CaptureCommand} (h : CmdStep s s2)
    (hp : s.pending = false) : s2.pending = false := by
  cases h with
  | poll t => simp [poll_command, hp]
  | publish t r => simp [publish_result]
  | clear => simp [clear_command, initialCommand]

/-- The cleared pending flag stays cleared along every command-free run. -/
theorem cmdReachable_pending {s s2 : CaptureCommand} (h : CmdReachable s s2)
    (hp : s.pending = false) : s2.pending = false := by
  induction h with
  | refl => exact hp
  | tail _ h2 ih => exact cmdStep_pending h2 ih

/-- A poll of a non-pending command slot answers no_command. -/
theorem poll_not_pending (s : CaptureCommand) (t : ℚ) (hp : s.pending = false) :
    (poll_command s t).2 = .no_command := by
  simp [poll_command, hp]

/-- Claim C2: when a command is pending and at least 30 s old, the next poll
clears pending, publishes a Timeout capture result into the result slot and
answers no_command; and in every state reachable from there without a new
capture command (further polls, result publications, clears), a poll never
again answers with a capture response. -/
theorem poll_timeout (st : CaptureCommand) (now : ℚ)
    (hp : st.pending = true) (ht : 30 ≤ now - st.timestamp) :
    (poll_command st now).2 = .no_command
    ∧ (poll_command st now).1.pending = false
    ∧ (poll_command st now).1.result = some .timeout
    ∧ (poll_command st now).1.result_timestamp = now
    ∧ ∀ st2, CmdReachable (poll_command st now).1 st2 →
        st2.pending = false ∧ ∀ t, (poll_command st2 t).2 = .no_command := by
  have hnlt : ¬ now - st.timestamp < 30 := not_lt.mpr ht
  have hstate : (poll_command st now).1
      = { st with pending := false, result := some .timeout, result_timestamp := now } := by
    simp [poll_command, hp, hnlt, ht]
  have hresp : (poll_command st now).2 = .no_command := by
    simp [poll_command, hp, hnlt, ht]
  refine ⟨hresp, by rw [hstate], by rw [hstate], by rw [hstate], ?_⟩
  intro st2 hreach
  have hp2 : st2.pending = false := cmdReachable_pending hreach (by rw [hstate])
  exact ⟨hp2, fun t => poll_not_pending st2 t hp2⟩

/-- Witness for C2: an expired pending command (issued at 0, polled at 30)
answers no_command and holds the Timeout result. -/
theorem poll_timeout_witness :
    (poll_command ⟨true, some "attendance", none, none, none, none, 0, none, 0⟩ 30).2
        = .no_command
    ∧ (poll_command ⟨true, some "attendance", none, none, none, none, 0, none, 0⟩ 30).1.result
        = some .timeout := by
  have h := poll_timeout ⟨true, some "attendance", none, none, none, none, 0, none, 0⟩ 30
    rfl (by norm_num)
  exact ⟨h.1, h.2.2.1⟩

/-- Claim C6: of two consecutive capture commands, the second (when it
passes validation) unconditionally replaces the first: the resulting slot
equals the one built from the second request alone, polls within the 30 s
TTL report only the second command's mode and (stripped, register-only)
subject name, and no field of the first command survives. -/
theorem issue_last_writer_wins (st : CaptureCommand) (t1 t2 : ℚ)
    (m1 n1 y1 g1 e1 m2 n2 y2 g2 e2 : String)
    (h2 : ¬(m2 = "register" ∧ pyStrip n2 = "")) :
    (request_capture (request_capture st t1 m1 n1 y1 g1 e1).1 t2 m2 n2 y2 g2 e2).1
        = freshCommand t2 m2 n2 y2 g2 e2
    ∧ ∀ t, t - t2 < 30 →
        (poll_command
            (request_capture (request_capture st t1 m1 n1 y1 g1 e1).1 t2 m2 n2 y2 g2 e2).1
            t).2
          = .capture (some m2) (if m2 = "register" then some (pyStrip n2) else none) := by
  have hst2 : (request_capture (request_capture st t1 m1 n1 y1 g1 e1).1
      t2 m2 n2 y2 g2 e2).1 = freshCommand t2 m2 n2 y2 g2 e2 := by
    simp [request_capture, h2]
  refine ⟨hst2, fun t htt => ?_⟩
  rw [hst2]
  simp [poll_command, freshCommand, htt]

/-- Witness for C6: after an attendance command at time 0 and a logout
command at time 1, a poll at time 2 reports only the logout command. -/
theorem issue_last_writer_wins_witness :
    (request_capture (request_capture initialCommand 0 "attendance" "" "" "" "").1
        1 "logout" "" "" "" "").1
      = freshCommand 1 "logout" "" "" "" ""
    ∧ (poll_command
        (request_capture (request_capture initialCommand 0 "attendance" "" "" "" "").1
          1 "logout" "" "" "" "").1 2).2
      = .capture (some "logout")
          (if "logout" = "register" then some (pyStrip "") else none) := by
  have h := issue_last_writer_wins initialCommand 0 1 "attendance" "" "" "" ""
    "logout" "" "" "" "" (fun hcon => absurd hcon.1 (by decide))
  exact ⟨h.1, h.2 2 (by norm_num)⟩

/-- Polling a live pending command (younger than 30 s) leaves the slot
untouched. -/
theorem poll_live_id (st : CaptureCommand) (t : ℚ) (hp : st.pending = true)
    (htt : t - st.timestamp < 30) : (poll_command st t).1 = st := by
  simp [poll_command, hp, htt]

/-- A run of polls all inside the command TTL leaves a pending slot
untouched. -/
theorem pollMany_live_id (ts : List ℚ) (st : CaptureCommand) (hp : st.pending = true)
    (hts : ∀ t ∈ ts, t - st.timestamp < 30) : pollMany st ts = st := by
  induction ts with
  | nil => rfl
  | cons t rest ih =>
    unfold pollMany at ih ⊢
    rw [List.foldl_cons, poll_live_id st t hp (hts t (by simp))]
    exact ih (fun u hu => hts u (by simp [hu]))

/-- Claim C10: a new (validated) capture command resets the result slot
(result none, result timestamp 0) and sets pending; hence any result poll
between the command and the next resolution answers Waiting with
pending = true — in particular no CaptureResult produced for an earlier
command is still observable — and polls of the command inside its TTL do
not change that. -/
theorem issue_resets_result (st : CaptureCommand) (now : ℚ)
    (mode name y g e : String)
    (h : ¬(mode = "register" ∧ pyStrip name = "")) :
    ((request_capture st now mode name y g e).1.result = none
      ∧ (request_capture st now mode name y g e).1.result_timestamp = 0
      ∧ (request_capture st now mode name y g e).1.pending = true)
    ∧ (∀ t, get_capture_result (request_capture st now mode name y g e).1 t
        = .waiting true)
    ∧ ∀ ts : List ℚ, (∀ t ∈ ts, t - now < 30) →
        pollMany (request_capture st now mode name y g e).1 ts
            = (request_capture st now mode name y g e).1
        ∧ ∀ t, get_capture_result (pollMany (request_capture st now mode name y g e).1 ts) t
            = .waiting true := by
  have hst : (request_capture st now mode name y g e).1
      = freshCommand now mode name y g e := by
    simp [request_capture, h]
  have hfields : (freshCommand now mode name y g e).result = none
      ∧ (freshCommand now mode name y g e).result_timestamp = 0
      ∧ (freshCommand now mode name y g e).pending = true := by
    simp [freshCommand]
  have hwait : ∀ t, get_capture_result (freshCommand now mode name y g e) t
      = .waiting true := by
    intro t
    simp [get_capture_result, freshCommand]
  refine ⟨by rw [hst]; exact hfields, by rw [hst]; exact hwait, ?_⟩
  intro ts hts
  have hid : pollMany (request_capture st now mode name y g e).1 ts
      = (request_capture st now mode name y g e).1 := by
    rw [hst]
    exact pollMany_live_id ts (freshCommand now mode name y g e) (by simp [freshCommand])
      (by simpa [freshCommand] using hts)
  exact ⟨hid, by rw [hid, hst]; exact hwait⟩

/-- Witness for C10: a fresh attendance command at time 0 whose slot held an
old result; after the command and polls at times 5 and 10, a result poll at
time 3 still answers Waiting with pending true. -/
theorem issue_resets_result_witness :
    (request_capture ⟨false, none, none, none, none, none, 0, some .timeout, 0⟩
        0 "attendance" "" "" "" "").1.result = none
    ∧ get_capture_result
        (pollMany (request_capture ⟨false, none, none, none, none, none, 0, some .timeout, 0⟩
          0 "attendance" "" "" "" "").1 [5, 10]) 3
      = .waiting true := by
  have h := issue_resets_result ⟨false, none, none, none, none, none, 0, some .timeout, 0⟩
    0 "attendance" "" "" "" "" (fun hcon => absurd hcon.1 (by decide))
  refine ⟨h.1.1, ?_⟩
  have h2 := h.2.2 [5, 10] (by intro t htm; simp at htm; rcases htm with rfl | rfl <;> norm_num)
  exact h2.2 3

/-- Counterexample to claim C4: on the web fallback path a resolved Success
is returned to the HTTP caller but the Command Store's result slot stays
empty — `/api/web/attendance` never writes `capture_command`, so a
subsequent result poll cannot observe the outcome. -/
theorem web_attendance_not_published :
    (web_attendance initialCommand [] 0 (some ("Alice", 1))).2.2
        = .success "Alice" "IN" (some 1) 1
    ∧ (web_attendance initialCommand [] 0 (some ("Alice", 1))).1.result = none
    ∧ get_capture_result (web_attendance initialCommand [] 0 (some ("Alice", 1))).1 0
        = .waiting false := by
  refine ⟨?_, ?_, ?_⟩
  · simp [web_attendance, resolveRecognized, check_duplicate_attendance, log_attendance]
  · simp [web_attendance, initialCommand]
  · simp [web_attendance, get_capture_result, initialCommand]

/-- A published result is held in the slot and observed by any result poll
within the 60 s result TTL. -/
theorem publish_result_observed (cmd : CaptureCommand) (now : ℚ) (r : Resolution) :
    (publish_result cmd now r).result = some r
    ∧ ∀ t, t - now < 60 → get_capture_result (publish_result cmd now r) t = .found r := by
  refine ⟨rfl, fun t htl => ?_⟩
  simp [publish_result, get_capture_result, htl]

/-- Every branch of the attendance mode of `/api/recognize` publishes the
resolution it returns. -/
theorem recognize_attendance_publishes (cmd : CaptureCommand) (db : List ALog)
    (now : ℚ) (matchRes : Option (String × ℚ)) :
    (recognize_attendance cmd db now matchRes).1
      = publish_result cmd now (recognize_attendance cmd db now matchRes).2.2 := by
  rcases matchRes with _ | m <;> rfl

/-- Every branch of the logout mode of `/api/recognize` publishes the
resolution it returns. -/
theorem recognize_logout_publishes (cmd : CaptureCommand) (db : List ALog)
    (now : ℚ) (matchRes : Option (String × ℚ)) :
    (recognize_logout cmd db now matchRes).1
      = publish_result cmd now (recognize_logout cmd db now matchRes).2.2 := by
  rcases matchRes with _ | m <;> rfl

/-- Every branch of the register mode of `/api/recognize` (name rejection,
face failure, successful registration) publishes the resolution it
returns. -/
theorem recognize_register_publishes (cmd : CaptureCommand) (db : List Student)
    (now : ℚ) (header : String) (faceOk : Bool) :
    (recognize_register cmd db now header faceOk).1
      = publish_result cmd now (recognize_register cmd db now header faceOk).2.2 := by
  cases hn : recognize_register_name header cmd.student_name with
  | none => simp [recognize_register, hn]
  | some nm => cases faceOk <;> simp [recognize_register, hn]

/-- Claim C4 as amended: on the ESP32 `/api/recognize` path every resolution
of every branch — attendance mode (duplicate/success/unknown), logout mode
(duplicate/success/unknown), register mode (registered, name validation
error, no-face error) and the missing-image/exception error replies — is
both returned synchronously and written into the Command Store's result
slot, so a result poll within the 60 s result TTL observes the same
outcome; the web fallback paths return their resolution in the HTTP
response only and leave the Command Store untouched. -/
theorem resolution_publication (cmd : CaptureCommand) (db : List ALog)
    (sdb : List Student) (now : ℚ) (matchRes : Option (String × ℚ))
    (header : String) (faceOk : Bool) (msg : String) :
    ((recognize_attendance cmd db now matchRes).1.result
        = some (recognize_attendance cmd db now matchRes).2.2
      ∧ ∀ t, t - now < 60 →
          get_capture_result (recognize_attendance cmd db now matchRes).1 t
            = .found (recognize_attendance cmd db now matchRes).2.2)
    ∧ ((recognize_logout cmd db now matchRes).1.result
        = some (recognize_logout cmd db now matchRes).2.2
      ∧ ∀ t, t - now < 60 →
          get_capture_result (recognize_logout cmd db now matchRes).1 t
            = .found (recognize_logout cmd db now matchRes).2.2)
    ∧ ((recognize_register cmd sdb now header faceOk).1.result
        = some (recognize_register cmd sdb now header faceOk).2.2
      ∧ ∀ t, t - now < 60 →
          get_capture_result (recognize_register cmd sdb now header faceOk).1 t
            = .found (recognize_register cmd sdb now header faceOk).2.2)
    ∧ ((recognize_error_reply cmd now msg).1.result
        = some (recognize_error_reply cmd now msg).2
      ∧ ∀ t, t - now < 60 →
          get_capture_result (recognize_error_reply cmd now msg).1 t
            = .found (recognize_error_reply cmd now msg).2)
    ∧ (web_attendance cmd db now matchRes).1 = cmd
    ∧ (web_logout cmd db now matchRes).1 = cmd := by
  refine ⟨?_, ?_, ?_, ?_, ?_, ?_⟩
  · rw [recognize_attendance_publishes]
    exact publish_result_observed cmd now _
  · rw [recognize_logout_publishes]
    exact publish_result_observed cmd now _
  · rw [recognize_register_publishes]
    exact publish_result_observed cmd now _
  · exact publish_result_observed cmd now _
  · rcases matchRes with _ | m <;> simp [web_attendance]
  · rcases matchRes with _ | m <;> simp [web_logout]

/-- Witness for the amended C4: concrete attendance, logout, register and
error resolutions are each observable through a result poll at publication
time, and the web path leaves the command slot untouched. -/
theorem resolution_publication_witness :
    get_capture_result (recognize_attendance initialCommand [] 0 (some ("Alice", 1))).1 0
        = .found (recognize_attendance initialCommand [] 0 (some ("Alice", 1))).2.2
    ∧ get_capture_result (recognize_logout initialCommand [] 0 (some ("Alice", 1))).1 0
        = .found (recognize_logout initialCommand [] 0 (some ("Alice", 1))).2.2
    ∧ get_capture_result (recognize_register initialCommand [] 0 "Ann" true).1 0
        = .found (recognize_register initialCommand [] 0 "Ann" true).2.2
    ∧ get_capture_result (recognize_error_reply initialCommand 0 "No image data received").1 0
        = .found (recognize_error_reply initialCommand 0 "No image data received").2
    ∧ (web_attendance initialCommand [] 0 (some ("Alice", 1))).1 = initialCommand := by
  have h := resolution_publication initialCommand [] [] 0 (some ("Alice", 1))
    "Ann" true "No image data received"
  exact ⟨h.1.2 0 (by norm_num), h.2.1.2 0 (by norm_num), h.2.2.1.2 0 (by norm_num),
    h.2.2.2.1.2 0 (by norm_num), h.2.2.2.2.1⟩

/-- Counterexample to claim C5: on the command-driven register path an
empty-string year level issued with the capture command overwrites the
previously stored value — `COALESCE` passes the non-NULL empty string
through, and this path (unlike the direct register endpoints) never maps
empty strings to NULL. -/
theorem empty_field_overwrites :
    (recognize_register
        (request_capture initialCommand 0 "register" "Bob" "" "" "").1
        [⟨"Bob", some "BSIT - 1st Year", none, none, none⟩] 5 "" true).2.1
      = [⟨"Bob", some "", some "", some "", some "Bob.jpg"⟩] := by decide

/-- Claim C5 as amended: re-registration never loses data to NULL incoming
fields, and on the direct `/api/register` and `/api/web/register` paths
(which map stripped-empty fields to NULL via `field or None`) empty
incoming fields also never overwrite stored values; only the
command-driven register path passes empty strings through. -/
theorem add_student_partial_update (db : List Student) (s0 : Student)
    (name y g e : String) (hmem : s0 ∈ db) (hname : s0.name = name) :
    ∃ s1 ∈ add_student db name (orNone y) (orNone g) (orNone e)
        (some (name ++ ".jpg")),
      s1.name = name
      ∧ (y = "" → s1.year_level = s0.year_level)
      ∧ (g = "" → s1.guardian_name = s0.guardian_name)
      ∧ (e = "" → s1.guardian_email = s0.guardian_email) := by
  have hb : (s0.name == name) = true := by simp [hname]
  have hany : db.any (fun s => s.name == name) = true :=
    List.any_eq_true.mpr ⟨s0, hmem, hb⟩
  unfold add_student
  rw [if_pos hany]
  refine ⟨{ s0 with
      year_level := coalesce (orNone y) s0.year_level,
      guardian_name := coalesce (orNone g) s0.guardian_name,
      guardian_email := coalesce (orNone e) s0.guardian_email,
      image_filename := coalesce (some (name ++ ".jpg")) s0.image_filename },
    ?_, ?_, ?_, ?_, ?_⟩
  · exact List.mem_map.mpr ⟨s0, hmem, by rw [if_pos hb]⟩
  · exact hname
  · intro hy
    rw [hy]
    rfl
  · intro hg
    rw [hg]
    rfl
  · intro he
    rw [he]
    rfl

/-- Witness for the amended C5: Ann's stored year level survives a
re-registration whose optional fields all arrive empty. -/
theorem add_student_partial_update_witness :
    ∃ s1 ∈ add_student [⟨"Ann", some "Y1", none, none, none⟩] "Ann"
        (orNone "") (orNone "") (orNone "") (some ("Ann" ++ ".jpg")),
      s1.name = "Ann"
      ∧ ("" = "" → s1.year_level
          = (⟨"Ann", some "Y1", none, none, none⟩ : Student).year_level)
      ∧ ("" = "" → s1.guardian_name
          = (⟨"Ann", some "Y1", none, none, none⟩ : Student).guardian_name)
      ∧ ("" = "" → s1.guardian_email
          = (⟨"Ann", some "Y1", none, none, none⟩ : Student).guardian_email) :=
  add_student_partial_update [⟨"Ann", some "Y1", none, none, none⟩]
    ⟨"Ann", some "Y1", none, none, none⟩ "Ann" "" "" ""
    (List.mem_singleton.mpr rfl) rfl

/-- Counterexample to claim C8: a whitespace-only X-Student-Name header on
the `/api/recognize` register path is never stripped, passes Python
truthiness, and the attempt proceeds through face processing to
persistence instead of being rejected with a validation error. -/
theorem whitespace_header_accepted :
    (recognize_register initialCommand [] 0 " " true).2.2 = .registered " "
    ∧ (recognize_register initialCommand [] 0 " " true).2.1
        = [⟨" ", none, none, none, some (" " ++ ".jpg")⟩] := by decide

/-- Claim C8 as amended: a registration is rejected with a validation error
(HTTP 400, before any face processing or persistence) exactly when the name
is absent or whitespace-only on `/api/register` and `/api/web/register`
(which strip before checking), but on the `/api/recognize` register path
exactly when both the X-Student-Name header and the pending command's name
are absent or empty — an untrimmed whitespace-only header is accepted. -/
theorem empty_name_validation (mname : Option String) (header : String)
    (cname : Option String) :
    (register_student_name_check mname = none ↔ pyStrip (mname.getD "") = "")
    ∧ (web_register_name_check mname = none ↔ pyStrip (mname.getD "") = "")
    ∧ (recognize_register_name header cname = none
        ↔ header = "" ∧ cname.getD "" = "") := by
  refine ⟨?_, ?_, ?_⟩
  · cases mname with
    | none => simp [register_student_name_check, show pyStrip "" = "" from rfl]
    | some s => by_cases h : pyStrip s = "" <;> simp [register_student_name_check, h]
  · by_cases h : pyStrip (mname.getD "") = "" <;> simp [web_register_name_check, h]
  · by_cases hh : header = ""
    · by_cases hc : cname.getD "" = "" <;> simp [recognize_register_name, hh, hc]
    · simp [recognize_register_name, hh]
